import Mathlib

/-!
Verification development for the scheduling and availability engine of the
Glisten booking backend (source: src/unnamed/part_000).

The engine is embedded shallowly:
* times of day are minutes from midnight (`Nat`); the HTTP-layer conversion
  between "HH:MM" strings and minutes (`timeStringToMinutes`,
  `minutesToTimeString`) is treated as the identity on well-formed times,
  so a missing time field is `Option.none`;
* calendar dates are days since the epoch (`Nat`); `dayOfWeek` maps day 0
  (1970-01-01, a Thursday) to 4, matching `Date.getDay` of the source;
* postcodes are lists of characters (`List Char`), so that the JavaScript
  string operations trim / toUpperCase / whitespace removal are explicit
  list functions; the empty list models a missing or empty field, matching
  the falsiness checks of the source;
* the three external collaborators (booking store, Google Calendar, the
  Distance Matrix travel-time service) are packed into `Env`: the store is
  a list of rows, the calendar query returns `Option (List CalBlock)` where
  `none` models a thrown fetch error, and the raw travel query returns
  `Option Nat` where `none` models any failed or malformed response (the
  source maps all of these to the sentinel 999 inside
  `getTravelTimeMinutes`).

All definitions follow the source; line numbers refer to
src/unnamed/part_000.
-/

namespace Glisten

/-- Working hours start, 08:30 (line 687). -/
def WORK_START : Nat := 8 * 60 + 30

/-- Working hours end, 16:30 (line 688). -/
def WORK_END : Nat := 16 * 60 + 30

/-- Maximum travel time between neighbouring jobs, minutes (line 691). -/
def TRAVEL_LIMIT_MIN : Nat := 20

/-- Buffer added after each job, minutes (line 694). -/
def BUFFER_AFTER_JOB_MIN : Nat := 30

/-- Grid step for the availability search, minutes (line 697). -/
def SLOT_STEP_MIN : Nat := 15

/-- Day of week of an epoch day; 0 = Sunday ... 6 = Saturday, as
`Date.getDay` returns. Epoch day 0 (1970-01-01) was a Thursday (= 4). -/
def dayOfWeek (d : Nat) : Nat := (d + 4) % 7

/-- `isWorkingDay` (lines 211-215): Monday (1) through Friday (5) only. -/
def isWorkingDay (d : Nat) : Bool := 1 ≤ dayOfWeek d && dayOfWeek d ≤ 5

/-- Postcodes (and the other raw strings fed to the travel-time service)
are lists of characters; `[]` models a missing or empty field. -/
abbrev Postcode := List Char

/-- Model of the JavaScript `String.prototype.trim`: drop leading and
trailing whitespace. -/
def trimStr (s : Postcode) : Postcode :=
  ((s.dropWhile Char.isWhitespace).reverse.dropWhile Char.isWhitespace).reverse

/-- `normalizePostcode` (lines 710-713): trim, uppercase, then remove all
remaining whitespace (the `replace(/\s+/g, "")` of the source). -/
def normalizePostcode (p : Postcode) : Postcode :=
  ((trimStr p).map Char.toUpper).filter (fun c => !c.isWhitespace)

/-- `getTravelTimeMinutes` (lines 719-767). The raw provider answer is
`travel from to : Option Nat`, where `none` models every failure branch of
the source (HTTP error, bad response, element not OK, thrown exception);
each such branch returns the sentinel 999, as does a missing endpoint.
The source trims both postcodes before building the query URL. -/
def getTravelTimeMinutes (travel : Postcode → Postcode → Option Nat)
    (fromP toP : Postcode) : Nat :=
  if fromP = [] ∨ toP = [] then 999
  else
    match travel (trimStr fromP) (trimStr toP) with
    | none => 999
    | some m => m

/-- One requested service line item (`ServiceItem` of the data model):
`serviceId` and `size` default to `""` when absent (the `|| ""` of the
source), `quantity` is `none` when absent. -/
structure Service where
  serviceId : String
  size : String
  quantity : Option Nat
deriving DecidableEq

/-- Model of the JavaScript `String.prototype.toLowerCase` used on service
ids and sizes: lowercase every character. (Stated directly as the
character map so that concrete runs reduce; the library `String.toLower`
is the same map but is irreducible.) -/
def jsToLower (s : String) : String := ⟨s.data.map Char.toLower⟩

/-- The `service.quantity || 1` of the source: both an absent quantity and
a zero quantity (falsy) collapse to 1. -/
def jsQuantity (s : Service) : Nat :=
  match s.quantity with
  | none => 1
  | some 0 => 1
  | some q => q

/-- `getServiceDurationMinutes` (lines 771-795). -/
def getServiceDurationMinutes (s : Service) : Nat :=
  let id := jsToLower s.serviceId
  let size := jsToLower s.size
  let quantity := jsQuantity s
  let singleDuration :=
    if id = "basic_wash" then 60
    else if id = "exterior_detailed" then
      if size = "small" then 60
      else if size = "medium" then 75
      else if size = "large" then 90
      else 60
    else if id = "full_detailed" then
      if size = "small" then 75
      else if size = "medium" then 95
      else if size = "large" then 120
      else 75
    else 60
  singleDuration * quantity

/-- `estimateBookingDurationMinutes` (lines 797-807): a missing or
non-array or empty service list gives 60; otherwise the per-item durations
are accumulated by the `total +=` loop. -/
def estimateBookingDurationMinutes : Option (List Service) → Nat
  | none => 60
  | some [] => 60
  | some l => l.foldl (fun total s => total + getServiceDurationMinutes s) 0

/-- One stored booking row, restricted to the columns the engine reads.
`services` is `none` when the column is NULL (the `row.services ? ... : []`
of the source); `preferred_time` is in minutes from midnight. -/
structure BookingRow where
  postcode : Postcode
  preferred_date : Nat
  preferred_time : Nat
  services : Option (List Service)
  status : String
deriving DecidableEq

/-- One busy interval fetched from the external calendar, minutes from
midnight. The extraction (lines 268-288) takes `getHours`/`getMinutes` of
the start and end datetimes of an arbitrary event, so both fields range
freely over [0, 1439] with no ordering constraint between them (an event
crossing midnight yields `start > stop`); nothing rejects or clamps such a
pair. The field `stop` renders the source name `end`, a Lean keyword. -/
structure CalBlock where
  start : Nat
  stop : Nat
deriving DecidableEq

/-- The unified schedule interval (`intervals.push` at lines 1277, 1282,
1663, 1667): `postcode = none` for calendar blocks. The field `stop`
renders the source name `end`. -/
structure Interval where
  start : Nat
  stop : Nat
  postcode : Option Postcode
deriving DecidableEq

/-- The external world, fixed for one request: the booking store, the
calendar query (`none` = the fetch threw) and the raw travel-time query
(`none` = the query failed). -/
structure Env where
  store : List BookingRow
  calendar : Nat → Option (List CalBlock)
  travel : Postcode → Postcode → Option Nat

/-- The SQL query shared by validation and availability (lines 1230-1236,
1627-1633): bookings for the date with status pending or confirmed.
The `ORDER BY preferred_time` is modelled by keeping store order; both
callers issue the same query, so both see the same list. -/
def occupyingRows (store : List BookingRow) (d : Nat) : List BookingRow :=
  store.filter (fun b =>
    b.preferred_date == d && (b.status == "pending" || b.status == "confirmed"))

/-- The interval build shared by validation and availability (lines
1269-1283, 1656-1668): bookings get the estimated duration plus the
30-minute buffer, calendar blocks are taken as fetched with no buffer. -/
def mkIntervals (rows : List BookingRow) (calendarBusy : List CalBlock) :
    List Interval :=
  rows.map (fun r =>
    { start := r.preferred_time,
      stop := r.preferred_time +
        (estimateBookingDurationMinutes r.services + BUFFER_AFTER_JOB_MIN),
      postcode := some r.postcode })
  ++ calendarBusy.map (fun c => { start := c.start, stop := c.stop, postcode := none })

/-- The half-open overlap test loop (lines 1286-1296, 1680-1687):
`max(s1,s2) < min(e1,e2)`. -/
def overlapsAny (intervals : List Interval) (s e : Nat) : Bool :=
  intervals.any (fun i => max s i.start < min e i.stop)

/-- `intervals.filter((i) => i.postcode)` (lines 1299, 1692): keep only
intervals with a truthy (present and non-empty) postcode. -/
def bookingIntervalsOf (intervals : List Interval) : List Interval :=
  intervals.filter (fun i =>
    match i.postcode with
    | some p => !p.isEmpty
    | none => false)

/-- `.filter((i) => i.end <= s).sort((a, b) => b.end - a.end)[0]` (lines
1301-1303, 1694-1696): the interval ending latest before the candidate;
the stable sort keeps the first listed among ties, which the fold
reproduces by replacing only on a strictly later stop. -/
def pickPrev (l : List Interval) (s : Nat) : Option Interval :=
  (l.filter (fun i => i.stop ≤ s)).foldl
    (fun acc i =>
      match acc with
      | none => some i
      | some j => if j.stop < i.stop then some i else some j) none

/-- `.filter((i) => i.start >= e).sort((a, b) => a.start - b.start)[0]`
(lines 1305-1307, 1698-1700): the interval starting earliest after the
candidate; first listed among ties. -/
def pickNext (l : List Interval) (e : Nat) : Option Interval :=
  (l.filter (fun i => e ≤ i.start)).foldl
    (fun acc i =>
      match acc with
      | none => some i
      | some j => if i.start < j.start then some i else some j) none

/-- The `allFar` loop (lines 1250-1257, 1636-1643, 1769-1776): true when
every occupying booking of the day is farther than the travel limit from
the candidate postcode; `List.all` short-circuits exactly as the
`break` does. -/
def allFar (travel : Postcode → Postcode → Option Nat) (postcode : Postcode)
    (rows : List BookingRow) : Bool :=
  rows.all (fun r =>
    !(getTravelTimeMinutes travel postcode r.postcode ≤ TRAVEL_LIMIT_MIN))

/-- The area-clustering gate (lines 1249-1266, 1635-1647): the day is
rejected when there is at least one occupying booking and all of them are
far. -/
def dayOutOfAreaGate (travel : Postcode → Postcode → Option Nat)
    (postcode : Postcode) (rows : List BookingRow) : Bool :=
  !rows.isEmpty && allFar travel postcode rows

/-- The requested duration shared by validation and availability (lines
1215-1217, 1623-1625): a non-array `services` collapses to `[]`, the
estimate is taken, and the 30-minute buffer is added. -/
def requestedDurationOf (services : Option (List Service)) : Nat :=
  estimateBookingDurationMinutes (some (services.getD [])) + BUFFER_AFTER_JOB_MIN

/-- The closed error taxonomy of `validateBooking`. -/
inductive VError
  | MISSING_FIELDS
  | OUTSIDE_WORKING_DAYS
  | OUTSIDE_WORKING_HOURS
  | OUT_OF_AREA_FOR_DAY
  | TIME_TAKEN
  | TRAVEL_TOO_FAR
deriving DecidableEq

/-- The previous-job travel check (lines 1309-1318 and 1702-1705): true
when there is no preceding location-bearing interval or its travel time is
within the limit. -/
def prevCheckOk (travel : Postcode → Postcode → Option Nat)
    (postcode : Postcode) (bookingIntervals : List Interval) (s : Nat) : Bool :=
  match pickPrev bookingIntervals s with
  | none => true
  | some p => !(TRAVEL_LIMIT_MIN < getTravelTimeMinutes travel (p.postcode.getD []) postcode)

/-- The next-job travel check (lines 1320-1329 and 1706-1709). -/
def nextCheckOk (travel : Postcode → Postcode → Option Nat)
    (postcode : Postcode) (bookingIntervals : List Interval) (e : Nat) : Bool :=
  match pickNext bookingIntervals e with
  | none => true
  | some nx => !(TRAVEL_LIMIT_MIN < getTravelTimeMinutes travel postcode (nx.postcode.getD []))

/-- `validateBooking` (lines 1197-1330). The checks run in source order:
required fields, working day, working hours, area gate, overlap, previous
travel, next travel. A calendar fetch error (`env.calendar d = none`)
degrades to no calendar blocks, as the try/catch at lines 1240-1245
does. -/
def validateBooking (env : Env) (date : Option Nat) (postcode : Postcode)
    (services : Option (List Service)) (preferred_time : Option Nat) :
    Except VError Unit :=
  match date, preferred_time with
  | some d, some t =>
    if postcode = [] then .error .MISSING_FIELDS
    else if !isWorkingDay d then .error .OUTSIDE_WORKING_DAYS
    else
      let requestedDuration := requestedDurationOf services
      let requestedStart := t
      let requestedEnd := requestedStart + requestedDuration
      if requestedStart < WORK_START ∨ WORK_END < requestedEnd then
        .error .OUTSIDE_WORKING_HOURS
      else
        let rows := occupyingRows env.store d
        let calendarBusy := (env.calendar d).getD []
        if dayOutOfAreaGate env.travel postcode rows then
          .error .OUT_OF_AREA_FOR_DAY
        else
          let intervals := mkIntervals rows calendarBusy
          if overlapsAny intervals requestedStart requestedEnd then
            .error .TIME_TAKEN
          else
            let bookingIntervals := bookingIntervalsOf intervals
            if !prevCheckOk env.travel postcode bookingIntervals requestedStart then
              .error .TRAVEL_TOO_FAR
            else if !nextCheckOk env.travel postcode bookingIntervals requestedEnd then
              .error .TRAVEL_TOO_FAR
            else .ok ()
  | _, _ => .error .MISSING_FIELDS

/-- Failure of the availability endpoint (line 1613-1617): missing date or
postcode. -/
inductive AError
  | MISSING_FIELDS
deriving DecidableEq

/-- The candidate grid of the slot loop (lines 1672-1676): starts at
`WORK_START`, steps by `SLOT_STEP_MIN`, keeps starts with
`start + dur <= WORK_END`, in ascending order. -/
def slotGrid (dur : Nat) : List Nat :=
  if WORK_START + dur ≤ WORK_END then
    (List.range ((WORK_END - WORK_START - dur) / SLOT_STEP_MIN + 1)).map
      (fun k => WORK_START + SLOT_STEP_MIN * k)
  else []

/-- The per-candidate body of the slot loop (lines 1679-1713): reject on
overlap, then require both travel checks. -/
def slotFeasible (travel : Postcode → Postcode → Option Nat)
    (postcode : Postcode) (intervals : List Interval) (s e : Nat) : Bool :=
  !overlapsAny intervals s e &&
    (prevCheckOk travel postcode (bookingIntervalsOf intervals) s &&
     nextCheckOk travel postcode (bookingIntervalsOf intervals) e)

/-- The availability endpoint `POST /api/availability` (lines 1609-1721),
returning start times in minutes. Non-working days and gated days return
an empty list; a missing date or postcode is the 400 response. -/
def findSlots (env : Env) (date : Option Nat) (postcode : Postcode)
    (services : Option (List Service)) : Except AError (List Nat) :=
  match date with
  | none => .error .MISSING_FIELDS
  | some d =>
    if postcode = [] then .error .MISSING_FIELDS
    else if !isWorkingDay d then .ok []
    else
      let requestedDuration := requestedDurationOf services
      let rows := occupyingRows env.store d
      if dayOutOfAreaGate env.travel postcode rows then .ok []
      else
        let calendarBusy := (env.calendar d).getD []
        let intervals := mkIntervals rows calendarBusy
        .ok ((slotGrid requestedDuration).filter (fun s =>
          slotFeasible env.travel postcode intervals s (s + requestedDuration)))

/-- One entry of the date-range availability answer. -/
structure DayAreaResult where
  date : Nat
  in_area : Bool
deriving DecidableEq

/-- The per-day loop of `POST /api/date-availability` (lines 1735-1786):
normalize the postcode once, then for each day of the inclusive range
mark non-working days out of area, days with no occupying booking in
area, and otherwise apply the `allFar` gate. The BETWEEN query grouped by
date is the per-day `occupyingRows`. -/
def rangeAvailability (env : Env) (postcode : Postcode) (startD endD : Nat) :
    List DayAreaResult :=
  let normPostcode := normalizePostcode postcode
  (List.range (endD + 1 - startD)).map (fun i =>
    let d := startD + i
    let bookingsForDay := occupyingRows env.store d
    let in_area :=
      if !isWorkingDay d then false
      else if !bookingsForDay.isEmpty then
        !allFar env.travel normPostcode bookingsForDay
      else true
    { date := d, in_area := in_area })

/-- Decidable equality of request outcomes, so that concrete runs of the
engine can be checked by `decide`. -/
instance exceptDecidableEq {ε α : Type} [DecidableEq ε] [DecidableEq α] :
    DecidableEq (Except ε α)
  | .ok a, .ok b =>
    if h : a = b then .isTrue (by rw [h])
    else .isFalse (fun hc => h (Except.ok.inj hc))
  | .error a, .error b =>
    if h : a = b then .isTrue (by rw [h])
    else .isFalse (fun hc => h (Except.error.inj hc))
  | .ok _, .error _ => .isFalse (fun hc => Except.noConfusion hc)
  | .error _, .ok _ => .isFalse (fun hc => Except.noConfusion hc)

/-- A one-car basic wash, 60 minutes. -/
def svcBasic : Service := { serviceId := "basic_wash", size := "", quantity := none }

/-- The candidate postcode of the concrete scenarios. -/
def pcAB1 : Postcode := "AB1".toList

/-- A second postcode, used for a distant existing booking. -/
def pcXY9 : Postcode := "XY9".toList

/-- A third postcode. -/
def pcX : Postcode := "X".toList

/-- The lowercase spelling of `pcAB1`. -/
def pcLowerAB1 : Postcode := "ab1".toList

/-- An empty world: no bookings, an empty calendar, all travel times 0. -/
def envTriv : Env :=
  { store := [], calendar := fun _ => some [], travel := fun _ _ => some 0 }

/-- One existing 60-minute booking at 09:00 at postcode AB1 on epoch day 4
(1970-01-05, a Monday). -/
def bookingAB1 : BookingRow :=
  { postcode := pcAB1, preferred_date := 4, preferred_time := 9 * 60,
    services := some [svcBasic], status := "pending" }

/-- The world of the concrete slot-grid scenario: the one AB1 booking, an
empty calendar, all travel times 0. -/
def envC2 : Env :=
  { store := [bookingAB1], calendar := fun _ => some [], travel := fun _ _ => some 0 }

/-- One existing 60-minute booking at 09:00 at postcode XY9 on day 4. -/
def bookingXY9 : BookingRow :=
  { postcode := pcXY9, preferred_date := 4, preferred_time := 9 * 60,
    services := some [svcBasic], status := "pending" }

/-- A world whose travel provider only answers queries leaving AB1 and
fails on every other query: queries towards AB1 fall back to the 999
sentinel. -/
def envC3 : Env :=
  { store := [bookingXY9], calendar := fun _ => some [],
    travel := fun f _ => if f = pcAB1 then some 0 else none }

/-- A world whose calendar holds one block crossing midnight, extracted by
the source as start 22:00 (= 1320) and stop 02:00 (= 120). -/
def envC7 : Env :=
  { store := [], calendar := fun _ => some [{ start := 1320, stop := 120 }],
    travel := fun _ _ => some 0 }

/-- One existing 60-minute booking at 09:00 at postcode X on day 4. -/
def bookingX : BookingRow :=
  { postcode := pcX, preferred_date := 4, preferred_time := 9 * 60,
    services := some [svcBasic], status := "pending" }

/-- A world whose travel provider only answers queries that involve the
exact spelling AB1 on either end and fails on every other query. -/
def envC10 : Env :=
  { store := [bookingX], calendar := fun _ => some [],
    travel := fun f t => if f = pcAB1 ∨ t = pcAB1 then some 0 else none }

end Glisten

namespace Glisten

/-! ## Helper lemmas -/

theorem charToNat_ofNat (n : Nat) (h : n.isValidChar) : (Char.ofNat n).toNat = n := by
  rw [Char.ofNat, dif_pos h]; rfl

theorem charToUpper_idem (c : Char) : c.toUpper.toUpper = c.toUpper := by
  unfold Char.toUpper
  by_cases h : c.toNat ≥ 97 ∧ c.toNat ≤ 122
  · rw [if_pos h]
    have hvalid : (c.toNat - 32).isValidChar := by left; omega
    simp only [charToNat_ofNat _ hvalid]
    rw [if_neg (by omega)]
  · rw [if_neg h, if_neg h]

theorem dropWhile_eq_self_of {p : Char → Bool} {l : List Char}
    (h : ∀ c ∈ l, p c = false) : l.dropWhile p = l := by
  cases l with
  | nil => rfl
  | cons a as =>
    rw [List.dropWhile_cons_of_neg (by simp [h a (List.mem_cons_self a as)])]

theorem trimStr_eq_self {s : Postcode} (h : ∀ c ∈ s, c.isWhitespace = false) :
    trimStr s = s := by
  unfold trimStr
  rw [dropWhile_eq_self_of h,
    dropWhile_eq_self_of (fun c hc => h c (List.mem_reverse.mp hc)),
    List.reverse_reverse]

theorem map_eq_self_of {f : Char → Char} {l : List Char}
    (h : ∀ c ∈ l, f c = c) : l.map f = l := by
  induction l with
  | nil => rfl
  | cons a as ih =>
    rw [List.map_cons, h a (List.mem_cons_self a as),
      ih (fun c hc => h c (List.mem_cons_of_mem a hc))]

theorem normalizePostcode_props (p : Postcode) :
    ∀ c ∈ normalizePostcode p, c.isWhitespace = false ∧ c.toUpper = c := by
  intro c hc
  unfold normalizePostcode at hc
  have h1 := List.of_mem_filter hc
  have h2 : c ∈ (trimStr p).map Char.toUpper := List.mem_of_mem_filter hc
  obtain ⟨c0, _, rfl⟩ := List.mem_map.mp h2
  exact ⟨by simpa using h1, charToUpper_idem c0⟩

theorem normalizePostcode_idem (p : Postcode) :
    normalizePostcode (normalizePostcode p) = normalizePostcode p := by
  have hw : ∀ c ∈ normalizePostcode p, c.isWhitespace = false :=
    fun c hc => (normalizePostcode_props p c hc).1
  have hu : ∀ c ∈ normalizePostcode p, c.toUpper = c :=
    fun c hc => (normalizePostcode_props p c hc).2
  calc normalizePostcode (normalizePostcode p)
      = ((normalizePostcode p).map Char.toUpper).filter (fun c => !c.isWhitespace) := by
        show ((trimStr (normalizePostcode p)).map Char.toUpper).filter (fun c => !c.isWhitespace)
          = ((normalizePostcode p).map Char.toUpper).filter (fun c => !c.isWhitespace)
        rw [trimStr_eq_self hw]
    _ = (normalizePostcode p).filter (fun c => !c.isWhitespace) := by rw [map_eq_self_of hu]
    _ = normalizePostcode p := List.filter_eq_self.mpr (fun c hc => by simp [hw c hc])

end Glisten

namespace Glisten

theorem foldl_duration (l : List Service) (a : Nat) :
    l.foldl (fun total s => total + getServiceDurationMinutes s) a
      = a + (l.map getServiceDurationMinutes).sum := by
  induction l generalizing a with
  | nil => simp
  | cons x xs ih => simp [ih, Nat.add_assoc]

theorem jsQuantity_pos (s : Service) : 1 ≤ jsQuantity s := by
  unfold jsQuantity
  cases hq : s.quantity with
  | none => exact Nat.le_refl 1
  | some q => cases q with
    | zero => exact Nat.le_refl 1
    | succ n => exact Nat.succ_le_succ (Nat.zero_le n)

theorem getServiceDurationMinutes_ge_60 (s : Service) :
    60 ≤ getServiceDurationMinutes s := by
  unfold getServiceDurationMinutes
  have hq := jsQuantity_pos s
  have hd : 60 ≤ (if jsToLower s.serviceId = "basic_wash" then 60
      else if jsToLower s.serviceId = "exterior_detailed" then
        if jsToLower s.size = "small" then 60
        else if jsToLower s.size = "medium" then 75
        else if jsToLower s.size = "large" then 90
        else 60
      else if jsToLower s.serviceId = "full_detailed" then
        if jsToLower s.size = "small" then 75
        else if jsToLower s.size = "medium" then 95
        else if jsToLower s.size = "large" then 120
        else 75
      else 60) := by
    split_ifs <;> omega
  calc (60 : Nat) = 60 * 1 := by omega
    _ ≤ _ := Nat.mul_le_mul hd hq

theorem estimate_ge_60 (svcs : Option (List Service)) :
    60 ≤ estimateBookingDurationMinutes svcs := by
  match svcs with
  | none => exact Nat.le_refl 60
  | some [] => exact Nat.le_refl 60
  | some (x :: xs) =>
    show 60 ≤ (x :: xs).foldl (fun total s => total + getServiceDurationMinutes s) 0
    rw [foldl_duration]
    have := getServiceDurationMinutes_ge_60 x
    simp only [List.map_cons, List.sum_cons]
    omega

theorem slotGrid_mem {dur s : Nat} (h : s ∈ slotGrid dur) :
    WORK_START ≤ s ∧ s + dur ≤ WORK_END := by
  unfold slotGrid at h
  split at h
  case isTrue hguard =>
    obtain ⟨k, hk, rfl⟩ := List.mem_map.mp h
    have hk' : k ≤ (WORK_END - WORK_START - dur) / SLOT_STEP_MIN :=
      Nat.lt_succ_iff.mp (List.mem_range.mp hk)
    have h15 : SLOT_STEP_MIN * k ≤ WORK_END - WORK_START - dur := by
      calc SLOT_STEP_MIN * k
          ≤ SLOT_STEP_MIN * ((WORK_END - WORK_START - dur) / SLOT_STEP_MIN) :=
            Nat.mul_le_mul_left _ hk'
        _ ≤ WORK_END - WORK_START - dur := Nat.mul_div_le _ _
    simp only [WORK_START, WORK_END, SLOT_STEP_MIN] at *
    omega
  case isFalse => cases h

end Glisten

namespace Glisten

/-! ## Evaluation lemmas for the two request handlers -/

theorem validateBooking_weekend (env : Env) (d : Nat) (pc : Postcode)
    (svcs : Option (List Service)) (t : Nat)
    (hpc : ¬pc = []) (hwd : isWorkingDay d = false) :
    validateBooking env (some d) pc svcs (some t) = .error .OUTSIDE_WORKING_DAYS := by
  simp [validateBooking, hpc, hwd]

theorem validateBooking_gate_fail (env : Env) (d : Nat) (pc : Postcode)
    (svcs : Option (List Service)) (t : Nat)
    (hpc : ¬pc = []) (hwd : isWorkingDay d = true)
    (h1 : ¬t < WORK_START) (h2 : ¬WORK_END < t + requestedDurationOf svcs)
    (hgate : dayOutOfAreaGate env.travel pc (occupyingRows env.store d) = true) :
    validateBooking env (some d) pc svcs (some t) = .error .OUT_OF_AREA_FOR_DAY := by
  simp [validateBooking, hpc, hwd, h1, h2, hgate]

theorem validateBooking_past_gate (env : Env) (d : Nat) (pc : Postcode)
    (svcs : Option (List Service)) (t : Nat)
    (hpc : ¬pc = []) (hwd : isWorkingDay d = true)
    (h1 : ¬t < WORK_START) (h2 : ¬WORK_END < t + requestedDurationOf svcs)
    (hgate : dayOutOfAreaGate env.travel pc (occupyingRows env.store d) = false) :
    validateBooking env (some d) pc svcs (some t) =
      if overlapsAny (mkIntervals (occupyingRows env.store d) ((env.calendar d).getD []))
          t (t + requestedDurationOf svcs) then .error .TIME_TAKEN
      else if !prevCheckOk env.travel pc
          (bookingIntervalsOf
            (mkIntervals (occupyingRows env.store d) ((env.calendar d).getD []))) t then
        .error .TRAVEL_TOO_FAR
      else if !nextCheckOk env.travel pc
          (bookingIntervalsOf
            (mkIntervals (occupyingRows env.store d) ((env.calendar d).getD [])))
          (t + requestedDurationOf svcs) then
        .error .TRAVEL_TOO_FAR
      else .ok () := by
  simp [validateBooking, hpc, hwd, h1, h2, hgate]

theorem findSlots_nonworking (env : Env) (d : Nat) (pc : Postcode)
    (svcs : Option (List Service))
    (hpc : ¬pc = []) (hwd : isWorkingDay d = false) :
    findSlots env (some d) pc svcs = .ok [] := by
  simp [findSlots, hpc, hwd]

theorem findSlots_gated (env : Env) (d : Nat) (pc : Postcode)
    (svcs : Option (List Service))
    (hpc : ¬pc = []) (hwd : isWorkingDay d = true)
    (hgate : dayOutOfAreaGate env.travel pc (occupyingRows env.store d) = true) :
    findSlots env (some d) pc svcs = .ok [] := by
  simp [findSlots, hpc, hwd, hgate]

theorem findSlots_past_gate (env : Env) (d : Nat) (pc : Postcode)
    (svcs : Option (List Service))
    (hpc : ¬pc = []) (hwd : isWorkingDay d = true)
    (hgate : dayOutOfAreaGate env.travel pc (occupyingRows env.store d) = false) :
    findSlots env (some d) pc svcs =
      .ok ((slotGrid (requestedDurationOf svcs)).filter (fun s =>
        slotFeasible env.travel pc
          (mkIntervals (occupyingRows env.store d) ((env.calendar d).getD []))
          s (s + requestedDurationOf svcs))) := by
  simp [findSlots, hpc, hwd, hgate]

theorem validateBooking_ok_implies (env : Env) (d : Nat) (pc : Postcode)
    (svcs : Option (List Service)) (t : Nat)
    (h : validateBooking env (some d) pc svcs (some t) = .ok ()) :
    prevCheckOk env.travel pc
      (bookingIntervalsOf
        (mkIntervals (occupyingRows env.store d) ((env.calendar d).getD []))) t = true ∧
    nextCheckOk env.travel pc
      (bookingIntervalsOf
        (mkIntervals (occupyingRows env.store d) ((env.calendar d).getD [])))
      (t + requestedDurationOf svcs) = true := by
  simp only [validateBooking] at h
  split_ifs at h with h1 h2 h3 h4 h5 h6 h7
  all_goals simp_all

/-! ## Claim C1 -/

/-- Claim C1: for every date, candidate postcode, and requested service
list, with the booking store, calendar, and travel-time provider fixed in
`env`, every start time returned by `findSlots` is accepted by
`validateBooking` on the same date, postcode and services: validating such
a start never fails with TIME_TAKEN or TRAVEL_TOO_FAR. -/
theorem claimC1 (env : Env) (date : Option Nat) (pc : Postcode)
    (svcs : Option (List Service)) (s : Nat) (slots : List Nat)
    (hfind : findSlots env date pc svcs = .ok slots) (hs : s ∈ slots) :
    validateBooking env date pc svcs (some s) ≠ .error .TIME_TAKEN ∧
    validateBooking env date pc svcs (some s) ≠ .error .TRAVEL_TOO_FAR := by
  cases date with
  | none => simp [findSlots] at hfind
  | some d =>
    by_cases hpc : pc = []
    · simp [findSlots, hpc] at hfind
    · by_cases hwd : isWorkingDay d
      · by_cases hgate : dayOutOfAreaGate env.travel pc (occupyingRows env.store d)
        · rw [findSlots_gated env d pc svcs hpc hwd hgate] at hfind
          obtain rfl : ([] : List Nat) = slots := by simpa using hfind
          cases hs
        · rw [findSlots_past_gate env d pc svcs hpc hwd (by simpa using hgate)] at hfind
          obtain rfl := (Except.ok.inj hfind).symm
          obtain ⟨hgrid, hfeas⟩ := List.mem_filter.mp hs
          have hbounds := slotGrid_mem hgrid
          simp only [slotFeasible, Bool.and_eq_true, Bool.not_eq_true'] at hfeas
          have hov := hfeas.1
          have hprev := hfeas.2.1
          have hnext := hfeas.2.2
          have hval : validateBooking env (some d) pc svcs (some s) = .ok () := by
            rw [validateBooking_past_gate env d pc svcs s hpc hwd
              (by omega) (by omega) (by simpa using hgate)]
            simp [hov, hprev, hnext]
          rw [hval]
          exact ⟨fun hc => Except.noConfusion hc, fun hc => Except.noConfusion hc⟩
      · rw [findSlots_nonworking env d pc svcs hpc (by simpa using hwd)] at hfind
        obtain rfl : ([] : List Nat) = slots := by simpa using hfind
        cases hs

/-- Witness for claim C1: in the concrete one-booking world, 10:30 (= 630)
is returned by `findSlots` and indeed validates without TIME_TAKEN or
TRAVEL_TOO_FAR. -/
theorem claimC1_witness :
    validateBooking envC2 (some 4) pcAB1 (some [svcBasic]) (some 630) ≠ .error .TIME_TAKEN ∧
    validateBooking envC2 (some 4) pcAB1 (some [svcBasic]) (some 630) ≠ .error .TRAVEL_TOO_FAR :=
  claimC1 envC2 (some 4) pcAB1 (some [svcBasic]) 630
    ((findSlots envC2 (some 4) pcAB1 (some [svcBasic])).toOption.getD [])
    (by decide) (by decide)

end Glisten

namespace Glisten

/-! ## Claim C2 -/

/-- Claim C2: in the concrete scenario (working hours 08:30-16:30, buffer
30, step 15, one existing 60-minute booking at 09:00 at AB1 occupying
09:00-10:30, requested 60-minute service at AB1, all travel times 0),
`findSlots` returns a list containing 10:30 (= 630) and containing none of
the grid candidates from 08:30 (= 510) through 10:15 (= 615). -/
theorem claimC2 :
    630 ∈ (findSlots envC2 (some 4) pcAB1 (some [svcBasic])).toOption.getD [] ∧
    510 ∉ (findSlots envC2 (some 4) pcAB1 (some [svcBasic])).toOption.getD [] ∧
    525 ∉ (findSlots envC2 (some 4) pcAB1 (some [svcBasic])).toOption.getD [] ∧
    540 ∉ (findSlots envC2 (some 4) pcAB1 (some [svcBasic])).toOption.getD [] ∧
    555 ∉ (findSlots envC2 (some 4) pcAB1 (some [svcBasic])).toOption.getD [] ∧
    570 ∉ (findSlots envC2 (some 4) pcAB1 (some [svcBasic])).toOption.getD [] ∧
    585 ∉ (findSlots envC2 (some 4) pcAB1 (some [svcBasic])).toOption.getD [] ∧
    600 ∉ (findSlots envC2 (some 4) pcAB1 (some [svcBasic])).toOption.getD [] ∧
    615 ∉ (findSlots envC2 (some 4) pcAB1 (some [svcBasic])).toOption.getD [] := by
  decide

/-! ## Claim C4 -/

theorem getTravelTimeMinutes_failure (travel : Postcode → Postcode → Option Nat)
    (a b : Postcode) (h : travel (trimStr a) (trimStr b) = none) :
    getTravelTimeMinutes travel a b = 999 := by
  unfold getTravelTimeMinutes
  split
  · rfl
  · rw [h]

theorem dayOutOfAreaGate_iff (travel : Postcode → Postcode → Option Nat)
    (pc : Postcode) (rows : List BookingRow) :
    dayOutOfAreaGate travel pc rows = true ↔
      rows ≠ [] ∧ ∀ r ∈ rows, TRAVEL_LIMIT_MIN < getTravelTimeMinutes travel pc r.postcode := by
  simp [dayOutOfAreaGate, allFar, List.all_eq_true, List.isEmpty_iff, Nat.not_le,
    Bool.and_eq_true, Bool.not_eq_true']

/-- Claim C4: the area-clustering gate declares a day out of area exactly
when the occupying-booking set is non-empty and the travel time from the
candidate to every booking exceeds TRAVEL_LIMIT_MIN = 20 (a failed query
yields the sentinel 999, hence also exceeds); with zero occupying bookings
the day is in area; any single booking within the limit keeps the day in
area (the short-circuit case). -/
theorem claimC4 (travel : Postcode → Postcode → Option Nat) (pc : Postcode)
    (rows : List BookingRow) :
    dayOutOfAreaGate travel pc [] = false ∧
    (dayOutOfAreaGate travel pc rows = true ↔
      rows ≠ [] ∧ ∀ r ∈ rows, TRAVEL_LIMIT_MIN < getTravelTimeMinutes travel pc r.postcode) ∧
    (rows ≠ [] → (∀ r ∈ rows, travel (trimStr pc) (trimStr r.postcode) = none) →
      dayOutOfAreaGate travel pc rows = true) ∧
    (∀ r ∈ rows, getTravelTimeMinutes travel pc r.postcode ≤ TRAVEL_LIMIT_MIN →
      dayOutOfAreaGate travel pc rows = false) := by
  refine ⟨rfl, dayOutOfAreaGate_iff travel pc rows, ?_, ?_⟩
  · intro hne hfail
    refine (dayOutOfAreaGate_iff travel pc rows).mpr ⟨hne, fun r hr => ?_⟩
    rw [getTravelTimeMinutes_failure travel pc r.postcode (hfail r hr)]
    decide
  · intro r hr hle
    by_contra hcon
    have hgate : dayOutOfAreaGate travel pc rows = true := by
      cases hb : dayOutOfAreaGate travel pc rows
      · exact absurd hb hcon
      · rfl
    have := ((dayOutOfAreaGate_iff travel pc rows).mp hgate).2 r hr
    omega

/-- Witness for claim C4: with a travel provider that fails on every query
and one existing booking, the day is declared out of area. -/
theorem claimC4_witness :
    dayOutOfAreaGate (fun _ _ => none) pcAB1 [bookingXY9] = true :=
  (claimC4 (fun _ _ => none) pcAB1 [bookingXY9]).2.2.1 (by decide) (by decide)

/-! ## Claim C5 -/

/-- Counterexample to claim C5 as stated: epoch day 2 (1970-01-03) is a
Saturday, yet with the postcode and time fields absent `validateBooking`
fails with MISSING_FIELDS, not OUTSIDE_WORKING_DAYS — the required-field
check runs before the working-day check. -/
theorem claimC5_counterexample :
    dayOfWeek 2 = 6 ∧
    validateBooking envTriv (some 2) [] none none = .error .MISSING_FIELDS ∧
    validateBooking envTriv (some 2) [] none none ≠ .error .OUTSIDE_WORKING_DAYS := by
  decide

/-- Claim C5 (amended): for every input whose date falls on a Saturday or
Sunday and whose required fields (postcode, time) are present, validate
fails with OUTSIDE_WORKING_DAYS regardless of the values of the other
fields. -/
theorem claimC5 (env : Env) (d : Nat) (pc : Postcode)
    (svcs : Option (List Service)) (t : Nat)
    (hpc : pc ≠ []) (hwk : dayOfWeek d = 0 ∨ dayOfWeek d = 6) :
    validateBooking env (some d) pc svcs (some t) = .error .OUTSIDE_WORKING_DAYS := by
  apply validateBooking_weekend env d pc svcs t hpc
  rcases hwk with h | h
  · simp [isWorkingDay, h]
  · simp [isWorkingDay, h]

/-- Witness for claim C5: a Saturday request with all fields present fails
with OUTSIDE_WORKING_DAYS. -/
theorem claimC5_witness :
    validateBooking envTriv (some 2) pcAB1 none (some 600) = .error .OUTSIDE_WORKING_DAYS :=
  claimC5 envTriv 2 pcAB1 none 600 (by decide) (Or.inr (by decide))

/-! ## Claim C6 -/

theorem overlapsAny_mkIntervals_iff (rows : List BookingRow) (cal : List CalBlock)
    (t e : Nat) :
    overlapsAny (mkIntervals rows cal) t e = true ↔
      (∃ r ∈ rows,
        max t r.preferred_time <
          min e (r.preferred_time +
            (estimateBookingDurationMinutes r.services + BUFFER_AFTER_JOB_MIN))) ∨
      (∃ c ∈ cal, max t c.start < min e c.stop) := by
  simp [overlapsAny, mkIntervals, List.any_append, List.any_map, List.any_eq_true,
    Function.comp]

/-- Claim C6: in every occupancy test of validate and findSlots, a booking
blocks exactly the half-open interval whose length is its estimated
duration plus BUFFER_AFTER_JOB_MIN = 30, while a calendar block blocks
exactly its fetched start/stop with no buffer: under the conditions that
let validate reach its overlap check, validate fails with TIME_TAKEN
exactly when the request overlaps one of these intervals, and every slot
findSlots returns overlaps none of them. -/
theorem claimC6 (env : Env) (d : Nat) (pc : Postcode)
    (svcs : Option (List Service)) (t : Nat)
    (hpc : ¬pc = []) (hwd : isWorkingDay d = true)
    (h1 : ¬t < WORK_START) (h2 : ¬WORK_END < t + requestedDurationOf svcs)
    (hgate : dayOutOfAreaGate env.travel pc (occupyingRows env.store d) = false) :
    (validateBooking env (some d) pc svcs (some t) = .error .TIME_TAKEN ↔
      (∃ r ∈ occupyingRows env.store d,
        max t r.preferred_time <
          min (t + requestedDurationOf svcs)
            (r.preferred_time +
              (estimateBookingDurationMinutes r.services + BUFFER_AFTER_JOB_MIN))) ∨
      (∃ c ∈ (env.calendar d).getD [],
        max t c.start < min (t + requestedDurationOf svcs) c.stop)) ∧
    (∀ slots, findSlots env (some d) pc svcs = .ok slots → t ∈ slots →
      (∀ r ∈ occupyingRows env.store d,
        ¬max t r.preferred_time <
          min (t + requestedDurationOf svcs)
            (r.preferred_time +
              (estimateBookingDurationMinutes r.services + BUFFER_AFTER_JOB_MIN))) ∧
      (∀ c ∈ (env.calendar d).getD [],
        ¬max t c.start < min (t + requestedDurationOf svcs) c.stop)) := by
  constructor
  · rw [validateBooking_past_gate env d pc svcs t hpc hwd h1 h2 hgate]
    by_cases hov : overlapsAny
        (mkIntervals (occupyingRows env.store d) ((env.calendar d).getD []))
        t (t + requestedDurationOf svcs) = true
    · rw [if_pos hov]
      exact iff_of_true rfl
        ((overlapsAny_mkIntervals_iff (occupyingRows env.store d)
          ((env.calendar d).getD []) t (t + requestedDurationOf svcs)).mp hov)
    · have hov' : overlapsAny
          (mkIntervals (occupyingRows env.store d) ((env.calendar d).getD []))
          t (t + requestedDurationOf svcs) = false := by
        cases hb : overlapsAny (mkIntervals (occupyingRows env.store d)
            ((env.calendar d).getD [])) t (t + requestedDurationOf svcs)
        · rfl
        · exact absurd hb hov
      rw [if_neg hov]
      refine iff_of_false ?_ ?_
      · split_ifs
        · simp
        · simp
        · simp
      · intro hR
        rw [(overlapsAny_mkIntervals_iff (occupyingRows env.store d)
          ((env.calendar d).getD []) t (t + requestedDurationOf svcs)).mpr hR] at hov'
        cases hov'
  · intro slots hfs hmem
    rw [findSlots_past_gate env d pc svcs hpc hwd hgate] at hfs
    obtain rfl := (Except.ok.inj hfs).symm
    have hfeas := (List.mem_filter.mp hmem).2
    simp only [slotFeasible, Bool.and_eq_true, Bool.not_eq_true'] at hfeas
    have hov := hfeas.1
    have hno : ¬((∃ r ∈ occupyingRows env.store d,
        max t r.preferred_time <
          min (t + requestedDurationOf svcs)
            (r.preferred_time +
              (estimateBookingDurationMinutes r.services + BUFFER_AFTER_JOB_MIN))) ∨
      (∃ c ∈ (env.calendar d).getD [],
        max t c.start < min (t + requestedDurationOf svcs) c.stop)) := by
      intro hR
      rw [(overlapsAny_mkIntervals_iff (occupyingRows env.store d)
        ((env.calendar d).getD []) t (t + requestedDurationOf svcs)).mpr hR] at hov
      cases hov
    constructor
    · intro r hr hcon
      exact hno (Or.inl ⟨r, hr, hcon⟩)
    · intro c hc hcon
      exact hno (Or.inr ⟨c, hc, hcon⟩)

/-- Witness for claim C6: the 09:00 request in the one-booking world is
rejected with TIME_TAKEN exactly because it overlaps the buffered
09:00-10:30 booking interval. -/
theorem claimC6_witness :
    (validateBooking envC2 (some 4) pcAB1 (some [svcBasic]) (some 540) = .error .TIME_TAKEN ↔
      (∃ r ∈ occupyingRows envC2.store 4,
        max 540 r.preferred_time <
          min (540 + requestedDurationOf (some [svcBasic]))
            (r.preferred_time +
              (estimateBookingDurationMinutes r.services + BUFFER_AFTER_JOB_MIN))) ∨
      (∃ c ∈ (envC2.calendar 4).getD [],
        max 540 c.start < min (540 + requestedDurationOf (some [svcBasic])) c.stop)) ∧
    (∀ slots, findSlots envC2 (some 4) pcAB1 (some [svcBasic]) = .ok slots → 540 ∈ slots →
      (∀ r ∈ occupyingRows envC2.store 4,
        ¬max 540 r.preferred_time <
          min (540 + requestedDurationOf (some [svcBasic]))
            (r.preferred_time +
              (estimateBookingDurationMinutes r.services + BUFFER_AFTER_JOB_MIN))) ∧
      (∀ c ∈ (envC2.calendar 4).getD [],
        ¬max 540 c.start < min (540 + requestedDurationOf (some [svcBasic])) c.stop)) :=
  claimC6 envC2 4 pcAB1 (some [svcBasic]) 540
    (by decide) (by decide) (by decide) (by decide) (by decide)

end Glisten

namespace Glisten

/-! ## Claim C3 -/

/-- Claim C3: whenever the candidate interval has a preceding or following
location-bearing booking and the travel-time provider answer for that
neighbour is the failure sentinel 999 (which every failed raw query and
every missing endpoint produces), the candidate is rejected: validate can
never succeed, findSlots never returns the start, and — whenever validate
reaches its travel checks — it fails with TRAVEL_TOO_FAR. A failed travel
query is never treated as feasible. -/
theorem claimC3 (env : Env) (d : Nat) (pc : Postcode)
    (svcs : Option (List Service)) (t : Nat) :
    (∀ p, pickPrev (bookingIntervalsOf (mkIntervals (occupyingRows env.store d)
          ((env.calendar d).getD []))) t = some p →
      getTravelTimeMinutes env.travel (p.postcode.getD []) pc = 999 →
      validateBooking env (some d) pc svcs (some t) ≠ .ok () ∧
      (∀ slots, findSlots env (some d) pc svcs = .ok slots → t ∉ slots) ∧
      (¬pc = [] → isWorkingDay d = true → ¬t < WORK_START →
        ¬WORK_END < t + requestedDurationOf svcs →
        dayOutOfAreaGate env.travel pc (occupyingRows env.store d) = false →
        overlapsAny (mkIntervals (occupyingRows env.store d) ((env.calendar d).getD []))
          t (t + requestedDurationOf svcs) = false →
        validateBooking env (some d) pc svcs (some t) = .error .TRAVEL_TOO_FAR)) ∧
    (∀ nx, pickNext (bookingIntervalsOf (mkIntervals (occupyingRows env.store d)
          ((env.calendar d).getD []))) (t + requestedDurationOf svcs) = some nx →
      getTravelTimeMinutes env.travel pc (nx.postcode.getD []) = 999 →
      validateBooking env (some d) pc svcs (some t) ≠ .ok () ∧
      (∀ slots, findSlots env (some d) pc svcs = .ok slots → t ∉ slots) ∧
      (¬pc = [] → isWorkingDay d = true → ¬t < WORK_START →
        ¬WORK_END < t + requestedDurationOf svcs →
        dayOutOfAreaGate env.travel pc (occupyingRows env.store d) = false →
        overlapsAny (mkIntervals (occupyingRows env.store d) ((env.calendar d).getD []))
          t (t + requestedDurationOf svcs) = false →
        validateBooking env (some d) pc svcs (some t) = .error .TRAVEL_TOO_FAR)) := by
  constructor
  · intro p hpick h999
    have hPF : prevCheckOk env.travel pc
        (bookingIntervalsOf (mkIntervals (occupyingRows env.store d)
          ((env.calendar d).getD []))) t = false := by
      unfold prevCheckOk
      rw [hpick]
      dsimp only
      rw [h999]
      decide
    refine ⟨?_, ?_, ?_⟩
    · intro hok
      have := (validateBooking_ok_implies env d pc svcs t hok).1
      rw [hPF] at this
      cases this
    · intro slots hfs hmem
      by_cases hpc : pc = []
      · simp [findSlots, hpc] at hfs
      · by_cases hwd : isWorkingDay d
        · by_cases hgate : dayOutOfAreaGate env.travel pc (occupyingRows env.store d)
          · rw [findSlots_gated env d pc svcs hpc hwd hgate] at hfs
            obtain rfl : ([] : List Nat) = slots := by simpa using hfs
            cases hmem
          · rw [findSlots_past_gate env d pc svcs hpc hwd (by simpa using hgate)] at hfs
            obtain rfl := (Except.ok.inj hfs).symm
            have hfeas := (List.mem_filter.mp hmem).2
            simp only [slotFeasible, Bool.and_eq_true, Bool.not_eq_true'] at hfeas
            have := hfeas.2.1
            rw [hPF] at this
            cases this
        · rw [findSlots_nonworking env d pc svcs hpc (by simpa using hwd)] at hfs
          obtain rfl : ([] : List Nat) = slots := by simpa using hfs
          cases hmem
    · intro hpc hwd h1 h2 hgate hov
      rw [validateBooking_past_gate env d pc svcs t hpc hwd h1 h2 hgate]
      simp [hov, hPF]
  · intro nx hpick h999
    have hNF : nextCheckOk env.travel pc
        (bookingIntervalsOf (mkIntervals (occupyingRows env.store d)
          ((env.calendar d).getD []))) (t + requestedDurationOf svcs) = false := by
      unfold nextCheckOk
      rw [hpick]
      dsimp only
      rw [h999]
      decide
    refine ⟨?_, ?_, ?_⟩
    · intro hok
      have := (validateBooking_ok_implies env d pc svcs t hok).2
      rw [hNF] at this
      cases this
    · intro slots hfs hmem
      by_cases hpc : pc = []
      · simp [findSlots, hpc] at hfs
      · by_cases hwd : isWorkingDay d
        · by_cases hgate : dayOutOfAreaGate env.travel pc (occupyingRows env.store d)
          · rw [findSlots_gated env d pc svcs hpc hwd hgate] at hfs
            obtain rfl : ([] : List Nat) = slots := by simpa using hfs
            cases hmem
          · rw [findSlots_past_gate env d pc svcs hpc hwd (by simpa using hgate)] at hfs
            obtain rfl := (Except.ok.inj hfs).symm
            have hfeas := (List.mem_filter.mp hmem).2
            simp only [slotFeasible, Bool.and_eq_true, Bool.not_eq_true'] at hfeas
            have := hfeas.2.2
            rw [hNF] at this
            cases this
        · rw [findSlots_nonworking env d pc svcs hpc (by simpa using hwd)] at hfs
          obtain rfl : ([] : List Nat) = slots := by simpa using hfs
          cases hmem
    · intro hpc hwd h1 h2 hgate hov
      rw [validateBooking_past_gate env d pc svcs t hpc hwd h1 h2 hgate]
      by_cases hP : prevCheckOk env.travel pc
          (bookingIntervalsOf (mkIntervals (occupyingRows env.store d)
            ((env.calendar d).getD []))) t = true
      · simp [hov, hP, hNF]
      · have hP' : prevCheckOk env.travel pc
            (bookingIntervalsOf (mkIntervals (occupyingRows env.store d)
              ((env.calendar d).getD []))) t = false := by
          cases hb : prevCheckOk env.travel pc
              (bookingIntervalsOf (mkIntervals (occupyingRows env.store d)
                ((env.calendar d).getD []))) t
          · rfl
          · exact absurd hb hP
        simp [hov, hP', hNF]

/-- Witness for claim C3: in the world whose provider fails on every query
towards AB1, the 11:00 request after the 09:00 XY9 booking is rejected
with TRAVEL_TOO_FAR. -/
theorem claimC3_witness :
    validateBooking envC3 (some 4) pcAB1 (some [svcBasic]) (some 660) = .error .TRAVEL_TOO_FAR :=
  ((claimC3 envC3 4 pcAB1 (some [svcBasic]) 660).1
    { start := 540, stop := 630, postcode := some pcXY9 } (by decide) (by decide)).2.2
    (by decide) (by decide) (by decide) (by decide) (by decide) (by decide)

/-! ## Claim C7 -/

/-- Counterexample to claim C7 as stated: with the calendar holding a
block extracted from an event crossing midnight (start 22:00 = 1320, stop
02:00 = 120), the interval build produces a ScheduleInterval with
start ≥ stop — nothing rejects or clamps the inverted range. -/
theorem claimC7_counterexample :
    ({ start := 1320, stop := 120, postcode := none } : Interval) ∈
      mkIntervals (occupyingRows envC7.store 4) ((envC7.calendar 4).getD []) ∧
    ¬(({ start := 1320, stop := 120, postcode := none } : Interval).start <
      ({ start := 1320, stop := 120, postcode := none } : Interval).stop) := by
  decide

/-- Claim C7 (amended): every booking-derived ScheduleInterval satisfies
start < stop (its length is the positive estimated duration plus the
buffer), while calendar-derived intervals are used exactly as fetched,
with no rejection or clamping, and may be inverted. -/
theorem claimC7 (rows : List BookingRow) (cal : List CalBlock) (i : Interval)
    (hi : i ∈ mkIntervals rows cal) :
    (i.postcode.isSome → i.start < i.stop) ∧
    (i.postcode = none → ∃ c ∈ cal, i.start = c.start ∧ i.stop = c.stop) := by
  unfold mkIntervals at hi
  rcases List.mem_append.mp hi with h | h
  · obtain ⟨r, hr, rfl⟩ := List.mem_map.mp h
    constructor
    · intro _
      show r.preferred_time <
        r.preferred_time + (estimateBookingDurationMinutes r.services + BUFFER_AFTER_JOB_MIN)
      have := estimate_ge_60 r.services
      simp only [BUFFER_AFTER_JOB_MIN]
      omega
    · intro hnone
      simp at hnone
  · obtain ⟨c, hc, rfl⟩ := List.mem_map.mp h
    constructor
    · intro hsome
      simp at hsome
    · intro _
      exact ⟨c, hc, rfl, rfl⟩

/-- Witness for claim C7: the interval built from the concrete AB1 booking
satisfies start < stop. -/
theorem claimC7_witness :
    ({ start := 540, stop := 630, postcode := some pcAB1 } : Interval).start <
    ({ start := 540, stop := 630, postcode := some pcAB1 } : Interval).stop :=
  (claimC7 [bookingAB1] []
    { start := 540, stop := 630, postcode := some pcAB1 } (by decide)).1 (by decide)

end Glisten

namespace Glisten

/-! ## Claim C8 -/

/-- Claim C8: the duration estimator returns the 60-minute standard-visit
default on a missing or empty service list (never zero: every estimate is
at least 60), and it is total over malformed items — an unrecognized
serviceId falls back to the 60-minute default per unit, and an
unrecognized size falls back to the default of its serviceId (60 for
exterior_detailed, 75 for full_detailed), always multiplied by the
quantity. -/
theorem claimC8 :
    estimateBookingDurationMinutes none = 60 ∧
    estimateBookingDurationMinutes (some []) = 60 ∧
    (∀ svcs : Option (List Service), 60 ≤ estimateBookingDurationMinutes svcs) ∧
    (∀ s : Service, jsToLower s.serviceId ≠ "basic_wash" →
      jsToLower s.serviceId ≠ "exterior_detailed" →
      jsToLower s.serviceId ≠ "full_detailed" →
      getServiceDurationMinutes s = 60 * jsQuantity s) ∧
    (∀ s : Service, jsToLower s.serviceId = "exterior_detailed" →
      jsToLower s.size ≠ "small" → jsToLower s.size ≠ "medium" →
      jsToLower s.size ≠ "large" →
      getServiceDurationMinutes s = 60 * jsQuantity s) ∧
    (∀ s : Service, jsToLower s.serviceId = "full_detailed" →
      jsToLower s.size ≠ "small" → jsToLower s.size ≠ "medium" →
      jsToLower s.size ≠ "large" →
      getServiceDurationMinutes s = 75 * jsQuantity s) := by
  refine ⟨rfl, rfl, estimate_ge_60, ?_, ?_, ?_⟩
  · intro s h1 h2 h3
    unfold getServiceDurationMinutes
    simp [h1, h2, h3]
  · intro s h1 h2 h3 h4
    unfold getServiceDurationMinutes
    simp [h1, h2, h3, h4]
  · intro s h1 h2 h3 h4
    unfold getServiceDurationMinutes
    have hne : jsToLower s.serviceId ≠ "basic_wash" := by rw [h1]; decide
    have hne2 : jsToLower s.serviceId ≠ "exterior_detailed" := by rw [h1]; decide
    simp [hne, hne2, h1, h2, h3, h4]

/-- Witness for claim C8: a fully unrecognized service with quantity 3
falls back to 60 minutes per unit. -/
theorem claimC8_witness :
    getServiceDurationMinutes { serviceId := "mystery", size := "tiny", quantity := some 3 } =
      60 * jsQuantity { serviceId := "mystery", size := "tiny", quantity := some 3 } :=
  claimC8.2.2.2.1 { serviceId := "mystery", size := "tiny", quantity := some 3 }
    (by decide) (by decide) (by decide)

/-! ## Claim C9 -/

/-- Claim C9: for every location and every start/end day pair with
startD ≤ endD, the date-range availability returns exactly one
DayAreaResult per calendar day of the inclusive range, in date order, and
every non-working day of the range has in_area = false. -/
theorem claimC9 (env : Env) (pc : Postcode) (s e : Nat) (h : s ≤ e) :
    (rangeAvailability env pc s e).map DayAreaResult.date =
      (List.range (e + 1 - s)).map (fun i => s + i) ∧
    (rangeAvailability env pc s e).length = e - s + 1 ∧
    ∀ r ∈ rangeAvailability env pc s e, isWorkingDay r.date = false → r.in_area = false := by
  refine ⟨?_, ?_, ?_⟩
  · unfold rangeAvailability
    rw [List.map_map]
    rfl
  · unfold rangeAvailability
    simp only [List.length_map, List.length_range]
    omega
  · intro r hr hwd
    unfold rangeAvailability at hr
    obtain ⟨i, hi, rfl⟩ := List.mem_map.mp hr
    simp only at hwd ⊢
    simp [hwd]

/-- Witness for claim C9: the three-day range Saturday 1970-01-03 through
Monday 1970-01-05 yields one entry per day in order, with the non-working
days not in area. -/
theorem claimC9_witness :
    (rangeAvailability envTriv pcAB1 2 4).map DayAreaResult.date =
      (List.range (4 + 1 - 2)).map (fun i => 2 + i) ∧
    (rangeAvailability envTriv pcAB1 2 4).length = 4 - 2 + 1 ∧
    ∀ r ∈ rangeAvailability envTriv pcAB1 2 4, isWorkingDay r.date = false → r.in_area = false :=
  claimC9 envTriv pcAB1 2 4 (by decide)

/-! ## Claim C10 -/

/-- Claim C10: the date-range availability normalizes the candidate
postcode before every travel query, so its per-day results are invariant
under normalizing the input postcode; validate and findSlots hand the raw
candidate postcode to the travel provider, and a provider distinguishing
the raw spellings makes both produce different outcomes for a postcode and
its normalization — they do not have the invariance. -/
theorem claimC10 :
    (∀ (env : Env) (pc : Postcode) (s e : Nat),
      rangeAvailability env pc s e = rangeAvailability env (normalizePostcode pc) s e) ∧
    validateBooking envC10 (some 4) pcLowerAB1 (some []) (some 660) ≠
      validateBooking envC10 (some 4) (normalizePostcode pcLowerAB1) (some []) (some 660) ∧
    findSlots envC10 (some 4) pcLowerAB1 (some []) ≠
      findSlots envC10 (some 4) (normalizePostcode pcLowerAB1) (some []) := by
  refine ⟨?_, by decide, by decide⟩
  intro env pc s e
  unfold rangeAvailability
  rw [normalizePostcode_idem]

end Glisten
